import Mathlib

/-!
Verification of the VideoGenByImageFE client (src/App.tsx) against its
specification. The React component's pure logic is shallowly embedded:
the upload queue is a list of `VideoDetails` records, socket-message
routing (`processMessage`), the disconnect/backoff handlers
(`handleDisconnect`, `onOpen`, `onClose`, the ping interval tick) and the
upload coordinator (`uploadAllFiles`) become pure functions over explicit
state. UI side effects (toasts, console logging) carry no queue or
connection state and are omitted.
-/

namespace VideoGenFE

/-- Embeds the browser file object: only its `name` is ever inspected by App.tsx. -/
structure File where
  name : String
deriving DecidableEq, Repr

/-- Per-file upload-queue entry (interface VideoDetails, App.tsx lines 14-21).
JS `videoUrl: string | null` and the optional `status` become `Option String`. -/
structure VideoDetails where
  id : Nat
  file : File
  progress : Nat
  videoUrl : Option String
  isProcessing : Bool
  status : Option String
deriving DecidableEq, Repr

/-- Incoming socket message shape (interface WebSocketMessage, App.tsx lines 23-28);
`value` and `video_url` are optional fields. -/
structure WebSocketMessage where
  type : String
  filename : String
  value : Option Nat
  video_url : Option String
deriving DecidableEq, Repr

/-- Fallback value of `process.env.REACT_APP_API_URL` (App.tsx line 10). -/
def API_URL : String := "http://localhost:8000"

/-- Backoff cap (App.tsx line 12). -/
def MAX_RECONNECT_DELAY : Nat := 30000

/-- JavaScript template-literal rendering of a possibly-undefined string. -/
def jsOptString : Option String → String
  | some s => s
  | none => "undefined"

/-- Body of the `prevQueue.map` inside processMessage (App.tsx lines 42-60):
the update applied to one queue entry for one incoming message. The filename
guard comes first; `progress` with value 100 keeps processing and sets a
status, other `progress` values write `data.value || 0`; `complete` stores
the absolute video URL; every other message type returns the task as is. -/
def processTask (data : WebSocketMessage) (task : VideoDetails) : VideoDetails :=
  if task.file.name = data.filename then
    if data.type = "progress" then
      if data.value = some 100 then
        { task with progress := 100, isProcessing := true,
                    status := some "Generating video..." }
      else
        { task with progress := data.value.getD 0, isProcessing := true }
    else if data.type = "complete" then
      { task with videoUrl := some (API_URL ++ jsOptString data.video_url),
                  isProcessing := false, progress := 100, status := some "Complete" }
    else
      task
  else
    task

/-- The message router (processMessage, App.tsx lines 40-62): maps the
per-task update over the whole upload queue. -/
def processMessage (data : WebSocketMessage) (queue : List VideoDetails) :
    List VideoDetails :=
  queue.map (processTask data)

/-- Whether the App JSX renders the video player for an entry (App.tsx
line 296): it does exactly when `videoUrl` is non-null. -/
def showsVideoPlayer (task : VideoDetails) : Bool :=
  task.videoUrl.isSome

/-- Delay computed by handleDisconnect from the current attempt counter
(App.tsx line 74). -/
def reconnectDelay (attempts : Nat) : Nat :=
  min (1000 * 2 ^ attempts) MAX_RECONNECT_DELAY

/-- The connection manager state: the React state flags and refs of App.tsx
lines 31-38 together with the ping interval handle created in onopen.
`reconnectScheduled` holds the delay of the pending reconnect timer, if one
is pending; `sentMessages` records the JSON payloads sent on the socket. -/
structure ConnState where
  isConnected : Bool
  shouldReconnect : Bool
  reconnectAttempts : Nat
  reconnectScheduled : Option Nat
  pingTimerActive : Bool
  sentMessages : List String
deriving DecidableEq, Repr

/-- Initial component state (App.tsx lines 31-38). -/
def initConnState : ConnState :=
  { isConnected := false, shouldReconnect := true, reconnectAttempts := 0,
    reconnectScheduled := none, pingTimerActive := false, sentMessages := [] }

/-- handleDisconnect (App.tsx lines 64-82): clears the connected flag,
computes the exponential-backoff delay from the current attempt counter,
increments the counter, clears any previous reconnect timer and schedules a
new one with that delay. -/
def handleDisconnect (s : ConnState) : ConnState :=
  { s with isConnected := false,
           reconnectAttempts := s.reconnectAttempts + 1,
           reconnectScheduled := some (reconnectDelay s.reconnectAttempts) }

/-- Firing of the scheduled reconnect timer (App.tsx lines 79-81): sets the
shouldReconnect flag, which the effect at lines 130-143 turns into a new
connection attempt. -/
def reconnectTimerFires (s : ConnState) : ConnState :=
  { s with shouldReconnect := true, reconnectScheduled := none }

/-- Period of the ping interval created in onopen (App.tsx line 107). -/
def PING_INTERVAL_MS : Nat := 30000

/-- JSON payload sent by each ping-interval tick (App.tsx line 105). -/
def pingJson : String := "\x7b\"type\":\"ping\"\x7d"

/-- The newSocket.onopen handler (App.tsx lines 91-114): marks the connection
established, resets the attempt counter to 0, clears shouldReconnect and
starts the ping interval. No confirmation message is awaited. -/
def onOpen (s : ConnState) : ConnState :=
  { s with isConnected := true, reconnectAttempts := 0, shouldReconnect := false,
           pingTimerActive := true }

/-- One tick of the ping interval (App.tsx lines 103-107): sends the ping
payload only while the socket is still OPEN. -/
def onPingTick (socketStillOpen : Bool) (s : ConnState) : ConnState :=
  if socketStillOpen then { s with sentMessages := s.sentMessages ++ [pingJson] }
  else s

/-- The newSocket.onclose handler installed inside onopen (App.tsx lines
110-113): clears the ping interval, then runs handleDisconnect. -/
def onClose (s : ConnState) : ConnState :=
  handleDisconnect { s with pingTimerActive := false }

/-- k consecutive connection drops, each one running handleDisconnect. -/
def disconnectIter : Nat → ConnState → ConnState
  | 0, s => s
  | k + 1, s => handleDisconnect (disconnectIter k s)

/-- JSON payload of the per-file processing request (App.tsx lines 198-201). -/
def startProcessingJson (filename : String) : String :=
  "\x7b\"action\":\"start_processing\",\"filename\":\"" ++ filename ++ "\"\x7d"

/-- Result of one uploadAllFiles call: the upload queue afterwards, the files
appended to the multipart FormData, and the socket payloads sent. -/
structure UploadOutcome where
  queue : List VideoDetails
  formFiles : List File
  sent : List String
deriving DecidableEq, Repr

/-- uploadAllFiles (App.tsx lines 161-224). `isConnected` is the guard at
line 162 (early return when false). `fetchResult` embeds the awaited fetch
of line 179: `none` when fetch threw, `some (ok, files)` for a reply with
`response.ok` and the parsed accepted-filenames list; a non-ok reply throws
into the same catch block as a fetch error (lines 184-186, 216-223), which
only toasts. On success every queue entry is marked processing (lines
189-194) and a start_processing payload is sent per accepted filename, but
only if the socket is OPEN at send time (lines 196-210, `socketOpen`). -/
def uploadAllFiles (isConnected : Bool) (queue : List VideoDetails)
    (fetchResult : Option (Bool × List String)) (socketOpen : Bool) :
    UploadOutcome :=
  if !isConnected then
    { queue := queue, formFiles := [], sent := [] }
  else
    let formFiles := (queue.filter fun t => !t.isProcessing).map fun t => t.file
    match fetchResult with
    | none => { queue := queue, formFiles := formFiles, sent := [] }
    | some (ok, files) =>
      if !ok then
        { queue := queue, formFiles := formFiles, sent := [] }
      else
        { queue := queue.map fun t => { t with isProcessing := true },
          formFiles := formFiles,
          sent := if socketOpen then files.map startProcessingJson else [] }

/-- Sample queue entry used by concrete witnesses and counterexamples. -/
def sampleTask : VideoDetails :=
  { id := 1, file := { name := "a.png" }, progress := 0, videoUrl := none,
    isProcessing := false, status := none }

/-- Sample complete message used by the C6 witness. -/
def sampleCompleteMsg : WebSocketMessage :=
  { type := "complete", filename := "a.png", value := none,
    video_url := some "/videos/a.mp4" }

/-! Helper lemmas shared by the claim theorems. -/

theorem processTask_id_file (d : WebSocketMessage) (t : VideoDetails) :
    (processTask d t).id = t.id ∧ (processTask d t).file = t.file := by
  unfold processTask
  repeat' split
  all_goals exact ⟨rfl, rfl⟩

theorem processTask_nonmatching (d : WebSocketMessage) (t : VideoDetails)
    (h : t.file.name ≠ d.filename) : processTask d t = t := by
  unfold processTask
  rw [if_neg h]

theorem processTask_other_type (d : WebSocketMessage) (t : VideoDetails)
    (h1 : d.type ≠ "progress") (h2 : d.type ≠ "complete") :
    processTask d t = t := by
  unfold processTask
  rcases eq_or_ne t.file.name d.filename with hm | hm
  · rw [if_pos hm, if_neg h1, if_neg h2]
  · rw [if_neg hm]

theorem disconnectIter_attempts (k : Nat) (s : ConnState) :
    (disconnectIter k s).reconnectAttempts = s.reconnectAttempts + k := by
  induction k with
  | zero => rfl
  | succ n ih =>
      show (handleDisconnect (disconnectIter n s)).reconnectAttempts = _
      rw [handleDisconnect, ih]
      rfl

theorem disconnectIter_succ_scheduled (k : Nat) (s : ConnState) :
    (disconnectIter (k + 1) s).reconnectScheduled =
      some (reconnectDelay (s.reconnectAttempts + k)) := by
  show (handleDisconnect (disconnectIter k s)).reconnectScheduled = _
  rw [handleDisconnect, disconnectIter_attempts]

/-! The claims. -/

/-- Claim C1, counterexample: messages of type `error` and `connection`,
even with a filename matching a queue entry, produce no queue-state update
at all — the queue after routing equals the queue before. -/
theorem router_ignores_error_and_connection_cex :
    processMessage { type := "error", filename := "a.png", value := none,
                     video_url := none } [sampleTask] = [sampleTask] ∧
    processMessage { type := "connection", filename := "a.png", value := none,
                     video_url := none } [sampleTask] = [sampleTask] := by
  exact ⟨by decide, by decide⟩

/-- Claim C1, amended: the message router inspects the type discriminator but
handles only `progress` and `complete`; a `progress` message marks the
matching entry processing, a `complete` message finishes it, while `error`
and `connection` messages leave the whole queue unchanged. -/
theorem processMessage_dispatch (data : WebSocketMessage)
    (queue : List VideoDetails) (t : VideoDetails)
    (hmatch : t.file.name = data.filename) :
    (data.type = "error" ∨ data.type = "connection" →
      processMessage data queue = queue) ∧
    (data.type = "progress" → (processTask data t).isProcessing = true) ∧
    (data.type = "complete" →
      (processTask data t).isProcessing = false ∧
      (processTask data t).progress = 100) := by
  refine ⟨fun h => ?_, fun h => ?_, fun h => ?_⟩
  · have hmap : ∀ x ∈ queue, processTask data x = x := by
      intro x _
      refine processTask_other_type data x ?_ ?_ <;>
        rcases h with h | h <;> rw [h] <;> decide
    unfold processMessage
    rw [List.map_congr_left hmap]
    simp
  · unfold processTask
    rw [if_pos hmatch, if_pos h]
    split <;> rfl
  · unfold processTask
    rw [if_pos hmatch, h]
    rw [if_neg (by decide : ¬ ("complete" : String) = "progress"),
        if_pos rfl]
    exact ⟨rfl, rfl⟩

/-- Claim C1, witness: concrete instances of the dispatch theorem — a
`connection` message leaves a one-entry queue unchanged, a `progress`
message marks the matching entry processing, and a `complete` message sets
its progress to 100. -/
theorem processMessage_dispatch_witness :
    processMessage { type := "connection", filename := "a.png", value := none,
                     video_url := none } [sampleTask] = [sampleTask] ∧
    (processTask { type := "progress", filename := "a.png", value := some 40,
                   video_url := none } sampleTask).isProcessing = true ∧
    (processTask sampleCompleteMsg sampleTask).progress = 100 :=
  ⟨(processMessage_dispatch _ [sampleTask] sampleTask rfl).1 (Or.inr rfl),
   (processMessage_dispatch _ [sampleTask] sampleTask rfl).2.1 rfl,
   ((processMessage_dispatch sampleCompleteMsg [sampleTask] sampleTask
      rfl).2.2 rfl).2⟩

/-- Claim C2, counterexample: running the onopen handler on the initial
(disconnected) state already marks the connection established — the mere
opening of the socket establishes the connection, with no confirmation
message awaited and no confirmation timeout anywhere in the manager. -/
theorem onOpen_establishes_cex :
    initConnState.isConnected = false ∧
    (onOpen initConnState).isConnected = true :=
  ⟨rfl, rfl⟩

/-- Claim C2, amended: the connection manager performs no handshake — the
socket open event alone establishes the connection: onopen sets isConnected,
resets the attempt counter, clears the reconnect flag and starts the ping
interval, without waiting for any confirmation message or running any
confirmation timeout. -/
theorem onOpen_no_handshake (s : ConnState) :
    (onOpen s).isConnected = true ∧
    (onOpen s).reconnectAttempts = 0 ∧
    (onOpen s).shouldReconnect = false ∧
    (onOpen s).pingTimerActive = true :=
  ⟨rfl, rfl, rfl, rfl⟩

/-- Claim C3: a successful open resets the attempt counter to 0; after k
further consecutive drops the counter reads k, and the next (k+1-th since
the open, n = k counted from 0) drop schedules its reconnect after exactly
min(1000 * 2^k, 30000) milliseconds. -/
theorem backoff_delay_exact (s : ConnState) (k : Nat) :
    (onOpen s).reconnectAttempts = 0 ∧
    (disconnectIter k (onOpen s)).reconnectAttempts = k ∧
    (disconnectIter (k + 1) (onOpen s)).reconnectScheduled =
      some (min (1000 * 2 ^ k) 30000) := by
  refine ⟨rfl, ?_, ?_⟩
  · rw [disconnectIter_attempts]
    show (0 : Nat) + k = k
    exact Nat.zero_add k
  · rw [disconnectIter_succ_scheduled]
    show some (reconnectDelay (0 + k)) = _
    rw [Nat.zero_add]
    rfl

/-- Claim C4, counterexample: no attempt bound exists — it is false that
after some number N of consecutive drops the manager stops scheduling
reconnection attempts; every drop schedules another one. -/
theorem no_reconnect_attempt_limit_cex :
    ¬ ∃ N : Nat, ∀ k : Nat, N < k →
      (disconnectIter k initConnState).reconnectScheduled = none := by
  rintro ⟨N, h⟩
  have h1 := h (N + 1) (Nat.lt_succ_self N)
  rw [disconnectIter_succ_scheduled] at h1
  exact Option.noConfusion h1

/-- Claim C4, amended: reconnection is not attempt-limited — after every
consecutive drop (the k+1-th since the initial state, for every k) the
manager schedules yet another reconnection attempt; only the backoff delay
is bounded, capped at MAX_RECONNECT_DELAY = 30000 milliseconds. -/
theorem reconnect_unbounded (k : Nat) :
    (disconnectIter (k + 1) initConnState).reconnectScheduled =
      some (min (1000 * 2 ^ k) 30000) ∧
    min (1000 * 2 ^ k) 30000 ≤ MAX_RECONNECT_DELAY := by
  constructor
  · rw [disconnectIter_succ_scheduled]
    show some (reconnectDelay (0 + k)) = _
    rw [Nat.zero_add]
    rfl
  · exact min_le_right _ _

/-- Claim C5, counterexample: with one unprocessed entry in the queue and a
successful POST whose reply accepts "a.png", but the socket no longer OPEN
at send time, the multipart form data held the file yet no start_processing
message is sent at all. -/
theorem upload_no_send_when_socket_closed_cex :
    (uploadAllFiles true [sampleTask] (some (true, ["a.png"])) false).sent
      = [] ∧
    (uploadAllFiles true [sampleTask] (some (true, ["a.png"])) false).formFiles
      = [sampleTask.file] := by
  exact ⟨rfl, rfl⟩

/-- Claim C5, amended: when the coordinator uploads, the multipart form data
contains exactly the files of the queue entries not marked processing; when
the POST succeeds, a start_processing message is sent for each filename of
the accepted-filenames reply provided the socket is OPEN at send time — with
the socket not OPEN, no message is sent. -/
theorem uploadAllFiles_success_spec (queue : List VideoDetails)
    (files : List String) (f : File) :
    (f ∈ (uploadAllFiles true queue (some (true, files)) true).formFiles ↔
      ∃ t, t ∈ queue ∧ t.isProcessing = false ∧ t.file = f) ∧
    (uploadAllFiles true queue (some (true, files)) true).sent
      = files.map startProcessingJson ∧
    (uploadAllFiles true queue (some (true, files)) false).sent = [] := by
  refine ⟨?_, rfl, rfl⟩
  show f ∈ (queue.filter fun t => !t.isProcessing).map (fun t => t.file) ↔ _
  simp only [List.mem_map, List.mem_filter, Bool.not_eq_true']
  constructor
  · rintro ⟨t, ⟨ht, hp⟩, hf⟩
    exact ⟨t, ht, hp, hf⟩
  · rintro ⟨t, ht, hp, hf⟩
    exact ⟨t, ⟨ht, hp⟩, hf⟩

/-- Claim C6: a `complete` message for the matching entry sets its videoUrl
to API_URL concatenated with the message video_url, sets progress to 100,
clears isProcessing (and writes status "Complete"), and the entry then
renders the video player. -/
theorem complete_message_updates (data : WebSocketMessage)
    (task : VideoDetails) (v : String)
    (htype : data.type = "complete")
    (hname : task.file.name = data.filename)
    (hurl : data.video_url = some v) :
    processTask data task =
      { task with videoUrl := some (API_URL ++ v), isProcessing := false,
                  progress := 100, status := some "Complete" } ∧
    showsVideoPlayer (processTask data task) = true := by
  have hstep : processTask data task =
      { task with videoUrl := some (API_URL ++ v), isProcessing := false,
                  progress := 100, status := some "Complete" } := by
    unfold processTask
    rw [if_pos hname, htype,
        if_neg (by decide : ¬ ("complete" : String) = "progress"),
        if_pos rfl, hurl]
    rfl
  exact ⟨hstep, by rw [hstep]; rfl⟩

/-- Claim C6, witness: the sample complete message applied to the sample
queue entry yields the finished, player-rendering entry. -/
theorem complete_message_updates_witness :
    processTask sampleCompleteMsg sampleTask =
      { sampleTask with videoUrl := some (API_URL ++ "/videos/a.mp4"),
                        isProcessing := false, progress := 100,
                        status := some "Complete" } ∧
    showsVideoPlayer (processTask sampleCompleteMsg sampleTask) = true :=
  complete_message_updates sampleCompleteMsg sampleTask "/videos/a.mp4"
    rfl rfl rfl

/-- Claim C7: for every routed message, every queue entry whose file name
differs from the message filename is returned unchanged, and every entry —
the matching one included — keeps its id and file fields. -/
theorem processMessage_frame (data : WebSocketMessage)
    (queue : List VideoDetails) :
    List.Forall₂
      (fun t t' => (t.file.name ≠ data.filename → t' = t) ∧
        t'.id = t.id ∧ t'.file = t.file)
      queue (processMessage data queue) := by
  unfold processMessage
  rw [List.forall₂_map_right_iff, List.forall₂_same]
  intro t _
  exact ⟨fun h => processTask_nonmatching data t h,
    (processTask_id_file data t).1, (processTask_id_file data t).2⟩

/-- Claim C8: the ping interval created on open has a 30000 millisecond
period; while the socket is still OPEN each tick sends the ping payload,
a tick with the socket no longer OPEN sends nothing, and closing the socket
stops the ping timer. -/
theorem ping_every_30s (s : ConnState) :
    PING_INTERVAL_MS = 30000 ∧
    (onOpen s).pingTimerActive = true ∧
    (onPingTick true s).sentMessages = s.sentMessages ++ [pingJson] ∧
    (onPingTick false s).sentMessages = s.sentMessages ∧
    (onClose s).pingTimerActive = false :=
  ⟨rfl, rfl, rfl, rfl, rfl⟩

/-- Claim C9: when the POST fails — the fetch threw, or the response was not
ok — the upload queue is returned unchanged and no socket message is sent. -/
theorem upload_failure_noop (queue : List VideoDetails)
    (files : List String) (socketOpen : Bool) :
    (uploadAllFiles true queue none socketOpen).queue = queue ∧
    (uploadAllFiles true queue none socketOpen).sent = [] ∧
    (uploadAllFiles true queue (some (false, files)) socketOpen).queue
      = queue ∧
    (uploadAllFiles true queue (some (false, files)) socketOpen).sent = [] :=
  ⟨rfl, rfl, rfl, rfl⟩

/-- Claim C10: when the POST succeeds, every queue entry — also one whose
filename is absent from the accepted-filenames reply — is marked processing,
with all of its other fields unchanged. -/
theorem upload_success_marks_all (queue : List VideoDetails)
    (files : List String) (socketOpen : Bool) :
    List.Forall₂
      (fun t t' => t'.isProcessing = true ∧ t'.id = t.id ∧ t'.file = t.file ∧
        t'.progress = t.progress ∧ t'.videoUrl = t.videoUrl ∧
        t'.status = t.status)
      queue (uploadAllFiles true queue (some (true, files)) socketOpen).queue := by
  have hq : (uploadAllFiles true queue (some (true, files)) socketOpen).queue
      = queue.map fun t => { t with isProcessing := true } := rfl
  rw [hq, List.forall₂_map_right_iff, List.forall₂_same]
  intro t _
  exact ⟨rfl, rfl, rfl, rfl, rfl, rfl⟩

end VideoGenFE
